import Mathlib

/-!
Verification development for the MCP SQLite server (`src/sqlite/server.py`).

The Python module exposes a fixed catalog of tools (`read-query`, `write-query`,
`create-table`, `list-tables`, `describe-table`, `append-insight`), a memo
resource `memo://insights` derived from an in-memory insight list, and a query
executor over sqlite3.  This file gives a shallow embedding of the dispatch
core (`handle_call_tool`), the executor (`_execute_query`), the memo renderer
(`_synthesize_memo`) and the resource reader (`handle_read_resource`), with the
sqlite engine, the notification transport and the Anthropic summarization
client abstracted as oracles supplied through an environment record.

Python exceptions are modelled with an explicit error type threaded through
`Except`; `sqlite3.Error` is a distinguished constructor because the dispatcher
catches it separately from the generic `Exception` handler.  String handling
(`str.strip`, `str.upper`, `str.startswith`, `str.join`) is modelled over the
ASCII fragment that SQL keywords and the server's fixed messages live in.
-/

/-- Python exception values as they matter to the dispatcher: `sqlite3.Error`
is caught by the first `except` clause; `ValueError` and every other
exception kind are caught by the second.  The payload is `str(e)`. -/
inductive Exc where
  | sqliteError (msg : String)
  | valueError (msg : String)
  | otherError (msg : String)
deriving DecidableEq

/-- `str(e)` for a modelled exception. -/
def Exc.message : Exc → String
  | .sqliteError m => m
  | .valueError m => m
  | .otherError m => m

/-- JSON-ish primitive values that can appear in a tool call's `arguments`
mapping (and hence in the insight list, which Python appends to untyped). -/
inductive JValue where
  | str (s : String)
  | num (n : Int)
  | bool (b : Bool)
  | null
deriving DecidableEq

/-- Python type name of a value, as it appears in `AttributeError` messages. -/
def JValue.typeName : JValue → String
  | .str _ => "str"
  | .num _ => "int"
  | .bool _ => "bool"
  | .null => "NoneType"

/-- `str(v)` / f-string interpolation of a primitive value. -/
def JValue.pyFormat : JValue → String
  | .str s => s
  | .num n => toString n
  | .bool b => if b then "True" else "False"
  | .null => "None"

/-- One result row: a `sqlite3.Row` converted by `dict(row)` — an ordered
mapping from column name to value. -/
def Row : Type := List (String × JValue)

/-- `types.TextContent(type="text", text=...)`: the `type` field is the
constant `"text"` on every construction site, so only `text` is modelled. -/
structure TextContent where
  text : String
deriving DecidableEq

/-- Python `str.strip()` on the left end of a character list. -/
def stripLeftChars : List Char → List Char
  | [] => []
  | c :: cs => if c.isWhitespace then stripLeftChars cs else c :: cs

/-- Right-hand strip, implemented by stripping the reversed list. -/
def stripRightChars (l : List Char) : List Char :=
  (stripLeftChars l.reverse).reverse

/-- Both-ends strip on character data. -/
def pyStripData (l : List Char) : List Char :=
  stripRightChars (stripLeftChars l)

/-- Python `str.strip()` (whitespace on both ends). -/
def pyStrip (s : String) : String :=
  String.mk (pyStripData s.data)

/-- First-match lookup in a character replacement table; characters outside
the table are left unchanged. -/
def charTableLookup : List (Char × Char) → Char → Char
  | [], c => c
  | (k, v) :: rest, c => if c = k then v else charTableLookup rest c

/-- The lower-to-upper replacement pairs of ASCII `str.upper()`. -/
def upperTable : List (Char × Char) :=
  [('a', 'A'), ('b', 'B'), ('c', 'C'), ('d', 'D'), ('e', 'E'), ('f', 'F'),
   ('g', 'G'), ('h', 'H'), ('i', 'I'), ('j', 'J'), ('k', 'K'), ('l', 'L'),
   ('m', 'M'), ('n', 'N'), ('o', 'O'), ('p', 'P'), ('q', 'Q'), ('r', 'R'),
   ('s', 'S'), ('t', 'T'), ('u', 'U'), ('v', 'V'), ('w', 'W'), ('x', 'X'),
   ('y', 'Y'), ('z', 'Z')]

/-- ASCII restriction of Python `str.upper()` on one character: the server
only ever upcases SQL text, whose keywords are ASCII. -/
def asciiUpperChar (c : Char) : Char :=
  charTableLookup upperTable c

/-- Python `str.upper()` (ASCII fragment). -/
def pyUpper (s : String) : String :=
  String.mk (s.data.map asciiUpperChar)

/-- Python `s.startswith(pre)`. -/
def pyStartsWith (s pre : String) : Bool :=
  pre.data.isPrefixOf s.data

/-- Python `s.startswith(tuple_of_prefixes)`. -/
def pyStartsWithAny (s : String) (pres : List String) : Bool :=
  pres.any (fun p => pyStartsWith s p)

/-- Python `sep.join(parts)`. -/
def pyJoin (sep : String) : List String → String
  | [] => ""
  | [x] => x
  | x :: y :: ys => x ++ sep ++ pyJoin sep (y :: ys)

/-- The write/DDL keyword tuple of `_execute_query`:
`('INSERT', 'UPDATE', 'DELETE', 'CREATE', 'DROP', 'ALTER')`. -/
def writeKeywords : List String :=
  ["INSERT", "UPDATE", "DELETE", "CREATE", "DROP", "ALTER"]

/-- Leading-keyword classification used by the `read-query` policy check:
`query.strip().upper().startswith("SELECT")`. -/
def classifiesRead (q : String) : Bool :=
  pyStartsWith (pyUpper (pyStrip q)) "SELECT"

/-- Leading-keyword classification used by `_execute_query` to choose the
commit-and-affected-rows branch:
`query.strip().upper().startswith(('INSERT', ..., 'ALTER'))`. -/
def classifiesWrite (q : String) : Bool :=
  pyStartsWithAny (pyUpper (pyStrip q)) writeKeywords

/-- The `create-table` policy check:
`query.strip().upper().startswith("CREATE TABLE")`. -/
def classifiesCreateTable (q : String) : Bool :=
  pyStartsWith (pyUpper (pyStrip q)) "CREATE TABLE"

/-- The server's mutable state: `self.insights`, the only long-lived mutable
field touched by the handlers (the db path and API key are fixed at init and
live in `Env`).  Python appends `arguments["insight"]` without a type check,
so the list holds arbitrary primitive values. -/
structure McpState where
  insights : List JValue
deriving DecidableEq

/-- External collaborators, fixed for the lifetime of a call:
* `engineExec q` — behaviour of `cursor.execute(q)` on the sqlite engine:
  either an exception, or a pair of the reported `cursor.rowcount` and the
  rows `cursor.fetchall()` would materialize;
* `notify uri` — behaviour of `session.send_resource_updated(uri)`;
* `anthropicKey` — the optional `anthropic_api_key` given at init;
* `collab ctx` — behaviour of the Anthropic `messages.create` exchange, as a
  function of the bullet-list insight string the server embeds into its fixed
  prompt template; on success it yields `message.content[0].text`. -/
structure Env where
  engineExec : String → Except Exc (Int × List Row)
  notify : String → Except Exc Unit
  anthropicKey : Option String
  collab : String → Except Exc String

/-- `_execute_query` (without the unused `params` branch — every call site in
the handler passes a bare query): run the statement on the engine, then
classify the trimmed upper-cased leading keyword; writes/DDL commit and
return a single `affected_rows` record, reads return the materialized rows. -/
def executeQuery (env : Env) (q : String) : Except Exc (List Row) :=
  match env.engineExec q with
  | .error e => .error e
  | .ok (rowcount, rows) =>
    if classifiesWrite q then
      .ok [[("affected_rows", JValue.num rowcount)]]
    else
      .ok rows

/-- The bullet list `"\n".join(f"- {insight}" for insight in self.insights)`. -/
def bulletsOf (ins : List JValue) : String :=
  pyJoin "\n" (ins.map (fun i => "- " ++ i.pyFormat))

/-- The deterministic memo body built when no Anthropic key is configured:
heading, bulleted insights, and the count-based summary sentence (only when
more than one insight has been recorded). -/
def basicMemo (ins : List JValue) : String :=
  let memo := "📊 Business Intelligence Memo 📊\n\n" ++ "Key Insights Discovered:\n\n"
    ++ bulletsOf ins
  if ins.length > 1 then
    memo ++ "\nSummary:\n"
      ++ "Analysis has revealed " ++ toString ins.length
      ++ " key business insights that suggest opportunities for strategic optimization and growth."
  else memo

/-- The rendering `_synthesize_memo` would produce with no collaborator
configured (`anthropic_api_key is None`), including the empty sentinel. -/
def deterministicMemo (ins : List JValue) : String :=
  if ins.isEmpty then "No business insights have been discovered yet."
  else basicMemo ins

/-- `_synthesize_memo`: returns the memo string together with the number of
Anthropic requests made during the call.  With a key configured it attempts
the collaborator exchange (stripping the returned text) and on any exception
falls back to returning the bare bullet string `insights` — note: not the
full basic memo. -/
def synthesizeMemo (env : Env) (ins : List JValue) : String × Nat :=
  if ins.isEmpty then ("No business insights have been discovered yet.", 0)
  else
    let insightsStr := bulletsOf ins
    match env.anthropicKey with
    | none => (basicMemo ins, 0)
    | some _ =>
      match env.collab insightsStr with
      | .ok t => (pyStrip t, 1)
      | .error _ => (insightsStr, 1)

/-- Observable side effects of one tool call: statements submitted to the
engine via `cursor.execute`, number of Anthropic requests, and resource-change
notifications submitted to the session. -/
structure CallTrace where
  execs : List String
  collabCalls : Nat
  notifies : List String
deriving DecidableEq

/-- The trace of a call that touched no collaborator. -/
def emptyTrace : CallTrace := ⟨[], 0, []⟩

/-- Result of running the body of `handle_call_tool` (the code inside its
`try`): the state and trace produced so far, plus either the returned content
list or the exception that escaped to the `except` clauses. -/
structure BodyResult where
  state : McpState
  trace : CallTrace
  out : Except Exc (List TextContent)

/-- Final result of `handle_call_tool` after its `except` clauses ran. -/
structure CallResult where
  state : McpState
  trace : CallTrace
  resp : List TextContent

/-- Association lookup in an `arguments` dict (Python dict keys are unique;
first match). -/
def lookupKey : List (String × JValue) → String → Option JValue
  | [], _ => none
  | (k, v) :: rest, key => if k = key then some v else lookupKey rest key

/-- Python truthiness test `not arguments` for `dict | None`. -/
def argsFalsy : Option (List (String × JValue)) → Bool
  | none => true
  | some l => l.isEmpty

/-- The guarded access pattern
`if not arguments or "k" not in arguments: raise ... else arguments["k"]`:
yields the value only when the mapping is truthy and has the key. -/
def getArg (args : Option (List (String × JValue))) (k : String) : Option JValue :=
  match args with
  | none => none
  | some l => if l.isEmpty then none else lookupKey l k

/-- Bare subscript `arguments[k]` (after the `not arguments` guard):
a missing key raises `KeyError`, whose `str` is the repr of the key. -/
def pyGetItem (args : Option (List (String × JValue))) (k : String) : Except Exc JValue :=
  match args with
  | none => .error (.otherError ("\x27NoneType\x27 object is not subscriptable"))
  | some l =>
    match lookupKey l k with
    | some v => .ok v
    | none => .error (.otherError ("\x27" ++ k ++ "\x27"))

/-- `v.strip()` demands a string: on any other primitive Python raises
`AttributeError` before any policy check or engine call runs. -/
def asPyString : JValue → Except Exc String
  | .str s => .ok s
  | v => .error (.otherError
      ("\x27" ++ v.typeName ++ "\x27 object has no attribute \x27strip\x27"))

/-- Python `repr` of a primitive value, for `str(results)`.  String values
are assumed quote- and escape-free, as produced by the engine oracle. -/
def reprValue : JValue → String
  | .str s => "\x27" ++ s ++ "\x27"
  | .num n => toString n
  | .bool b => if b then "True" else "False"
  | .null => "None"

/-- Python `str(dict(row))`. -/
def reprRow (r : Row) : String :=
  "\x7b" ++ pyJoin ", " (r.map (fun kv => "\x27" ++ kv.1 ++ "\x27: " ++ reprValue kv.2)) ++ "\x7d"

/-- Python `str(results)` for the list of row dicts. -/
def reprRows (rs : List Row) : String :=
  "[" ++ pyJoin ", " (rs.map reprRow) ++ "]"

/-- `arguments["query"].strip()`-style access: subscript then the string
demand made by `.strip()`. -/
def getQueryString (args : Option (List (String × JValue))) : Except Exc String :=
  match pyGetItem args "query" with
  | .error e => .error e
  | .ok v => asPyString v

/-- The fixed introspection statement issued by `list-tables`. -/
def listTablesQuery : String :=
  "SELECT name FROM sqlite_master WHERE type=\x27table\x27"

/-- The body of `handle_call_tool` (the code inside its `try`), mirroring the
Python branch structure: the `list-tables` / `describe-table` /
`append-insight` chain runs first; only afterwards does the bare
`if not arguments` guard fire for the three query tools, whose chain ends in
the `Unknown tool` raise. -/
def callBody (env : Env) (st : McpState) (name : String)
    (arguments : Option (List (String × JValue))) : BodyResult :=
  if name = "list-tables" then
    match executeQuery env listTablesQuery with
    | .ok rs => ⟨st, ⟨[listTablesQuery], 0, []⟩, .ok [⟨reprRows rs⟩]⟩
    | .error e => ⟨st, ⟨[listTablesQuery], 0, []⟩, .error e⟩
  else if name = "describe-table" then
    match getArg arguments "table_name" with
    | none => ⟨st, emptyTrace, .error (.valueError "Missing table_name argument")⟩
    | some v =>
      let q := "PRAGMA table_info(" ++ v.pyFormat ++ ")"
      match executeQuery env q with
      | .ok rs => ⟨st, ⟨[q], 0, []⟩, .ok [⟨reprRows rs⟩]⟩
      | .error e => ⟨st, ⟨[q], 0, []⟩, .error e⟩
  else if name = "append-insight" then
    match getArg arguments "insight" with
    | none => ⟨st, emptyTrace, .error (.valueError "Missing insight argument")⟩
    | some v =>
      let st1 : McpState := ⟨st.insights ++ [v]⟩
      -- `memo = self._synthesize_memo()` — the memo value is discarded, but
      -- the call (and, with a key configured, its Anthropic request) happens.
      let memoCall := synthesizeMemo env st1.insights
      match env.notify "memo://insights" with
      | .ok _ =>
        ⟨st1, ⟨[], memoCall.2, ["memo://insights"]⟩, .ok [⟨"Insight added to memo"⟩]⟩
      | .error e => ⟨st1, ⟨[], memoCall.2, ["memo://insights"]⟩, .error e⟩
  else if argsFalsy arguments then
    ⟨st, emptyTrace, .error (.valueError "Missing arguments")⟩
  else if name = "read-query" then
    match getQueryString arguments with
    | .error e => ⟨st, emptyTrace, .error e⟩
    | .ok q =>
      if !classifiesRead q then
        ⟨st, emptyTrace, .error (.valueError "Only SELECT queries are allowed for read-query")⟩
      else
        match executeQuery env q with
        | .ok rs => ⟨st, ⟨[q], 0, []⟩, .ok [⟨reprRows rs⟩]⟩
        | .error e => ⟨st, ⟨[q], 0, []⟩, .error e⟩
  else if name = "write-query" then
    match getQueryString arguments with
    | .error e => ⟨st, emptyTrace, .error e⟩
    | .ok q =>
      if classifiesRead q then
        ⟨st, emptyTrace, .error (.valueError "SELECT queries are not allowed for write-query")⟩
      else
        match executeQuery env q with
        | .ok rs => ⟨st, ⟨[q], 0, []⟩, .ok [⟨reprRows rs⟩]⟩
        | .error e => ⟨st, ⟨[q], 0, []⟩, .error e⟩
  else if name = "create-table" then
    match getQueryString arguments with
    | .error e => ⟨st, emptyTrace, .error e⟩
    | .ok q =>
      if !classifiesCreateTable q then
        ⟨st, emptyTrace, .error (.valueError "Only CREATE TABLE statements are allowed")⟩
      else
        match executeQuery env q with
        | .ok _ => ⟨st, ⟨[q], 0, []⟩, .ok [⟨"Table created successfully"⟩]⟩
        | .error e => ⟨st, ⟨[q], 0, []⟩, .error e⟩
  else
    ⟨st, emptyTrace, .error (.valueError ("Unknown tool: " ++ name))⟩

/-- Rendering of a caught exception by the two `except` clauses:
`sqlite3.Error` gets the engine prefix, everything else the generic one. -/
def caughtText (e : Exc) : String :=
  match e with
  | .sqliteError m => "Database error: " ++ m
  | .valueError m => "Error: " ++ m
  | .otherError m => "Error: " ++ m

/-- `handle_call_tool`: run the body and convert any escaped exception into a
successful single-text response. -/
def handleCallTool (env : Env) (st : McpState) (name : String)
    (arguments : Option (List (String × JValue))) : CallResult :=
  let r := callBody env st name arguments
  match r.out with
  | .ok ts => ⟨r.state, r.trace, ts⟩
  | .error e => ⟨r.state, r.trace, [⟨caughtText e⟩]⟩

/-- A parsed resource address `scheme ++ "://" ++ rest`. -/
structure Uri where
  scheme : String
  rest : String
deriving DecidableEq

/-- `handle_read_resource`: protocol faults (`ValueError`) propagate; on the
one valid address the current memo is synthesized.  The handler reads but
never assigns `self.insights`, so the state it leaves behind is returned
explicitly and is the input state. -/
def handleReadResource (env : Env) (st : McpState) (uri : Uri) :
    McpState × Except Exc String :=
  if uri.scheme ≠ "memo" then
    (st, .error (.valueError ("Unsupported URI scheme: " ++ uri.scheme)))
  else
    let path := uri.rest
    if path = "" ∨ path ≠ "insights" then
      (st, .error (.valueError ("Unknown resource path: " ++ path)))
    else
      (st, .ok (synthesizeMemo env st.insights).1)

/-! ### String-normalization lemmas -/

lemma stripLeftChars_idem (l : List Char) :
    stripLeftChars (stripLeftChars l) = stripLeftChars l := by
  induction l with
  | nil => rfl
  | cons c cs ih =>
    by_cases h : c.isWhitespace
    · simp [stripLeftChars, h, ih]
    · simp [stripLeftChars, h]

lemma stripLeftChars_length (l : List Char) :
    (stripLeftChars l).length ≤ l.length := by
  induction l with
  | nil => simp [stripLeftChars]
  | cons c cs ih =>
    by_cases h : c.isWhitespace
    · simp only [stripLeftChars, h, if_pos]
      exact Nat.le_trans ih (Nat.le_succ _)
    · simp [stripLeftChars, h]

lemma stripLeftChars_drops (l : List Char) :
    ∃ t, l = t ++ stripLeftChars l := by
  induction l with
  | nil => exact ⟨[], rfl⟩
  | cons c cs ih =>
    by_cases h : c.isWhitespace
    · obtain ⟨t, ht⟩ := ih
      exact ⟨c :: t, by simp [stripLeftChars, h]; exact ht⟩
    · exact ⟨[], by simp [stripLeftChars, h]⟩

lemma stripLeftChars_head (c : Char) (cs : List Char)
    (h : stripLeftChars (c :: cs) = c :: cs) : ¬ c.isWhitespace := by
  intro hws
  have hlen := stripLeftChars_length cs
  rw [stripLeftChars, if_pos hws] at h
  have := congrArg List.length h
  simp at this
  omega

lemma stripLeftChars_of_head_eq (m p r : List Char)
    (hm : stripLeftChars m = m) (he : m = p ++ r) :
    stripLeftChars p = p := by
  cases p with
  | nil => rfl
  | cons c p2 =>
    have hc : ¬ c.isWhitespace := by
      rw [he] at hm
      exact stripLeftChars_head c (p2 ++ r) hm
    rw [stripLeftChars, if_neg hc]

lemma stripRightChars_idem (l : List Char) :
    stripRightChars (stripRightChars l) = stripRightChars l := by
  unfold stripRightChars
  rw [List.reverse_reverse, stripLeftChars_idem]

lemma stripRightChars_keeps_front (l : List Char) :
    ∃ p, l = stripRightChars l ++ p := by
  obtain ⟨t, ht⟩ := stripLeftChars_drops l.reverse
  refine ⟨t.reverse, ?_⟩
  have := congrArg List.reverse ht
  simpa [stripRightChars] using this

lemma pyStripData_idem (l : List Char) :
    pyStripData (pyStripData l) = pyStripData l := by
  unfold pyStripData
  have hm : stripLeftChars (stripLeftChars l) = stripLeftChars l :=
    stripLeftChars_idem l
  obtain ⟨p, hp⟩ := stripRightChars_keeps_front (stripLeftChars l)
  rw [stripLeftChars_of_head_eq (stripLeftChars l) _ p hm hp,
    stripRightChars_idem]

lemma charTableLookup_pres (f : Char → Bool) (table : List (Char × Char))
    (hf : ∀ p ∈ table, f p.2 = f p.1) (c : Char) :
    f (charTableLookup table c) = f c := by
  induction table with
  | nil => rfl
  | cons p rest ih =>
    obtain ⟨k, v⟩ := p
    by_cases h : c = k
    · subst h
      simp only [charTableLookup, if_pos rfl]
      exact hf (c, v) (List.mem_cons_self _ _)
    · rw [charTableLookup, if_neg h]
      exact ih (fun p hp => hf p (List.mem_cons_of_mem _ hp))

lemma asciiUpperChar_isWhitespace (c : Char) :
    (asciiUpperChar c).isWhitespace = c.isWhitespace :=
  charTableLookup_pres Char.isWhitespace upperTable (by decide) c

lemma charTableLookup_self_or_image (table : List (Char × Char)) (c : Char) :
    charTableLookup table c = c ∨ ∃ p ∈ table, charTableLookup table c = p.2 := by
  induction table with
  | nil => exact Or.inl rfl
  | cons p rest ih =>
    obtain ⟨k, v⟩ := p
    by_cases h : c = k
    · subst h
      exact Or.inr ⟨(c, v), List.mem_cons_self _ _, by rw [charTableLookup, if_pos rfl]⟩
    · rw [charTableLookup, if_neg h]
      rcases ih with h1 | ⟨p, hp, he⟩
      · exact Or.inl h1
      · exact Or.inr ⟨p, List.mem_cons_of_mem _ hp, he⟩

lemma asciiUpperChar_fixed_on_image :
    ∀ p ∈ upperTable, asciiUpperChar p.2 = p.2 := by decide

lemma asciiUpperChar_idem (c : Char) :
    asciiUpperChar (asciiUpperChar c) = asciiUpperChar c := by
  rcases charTableLookup_self_or_image upperTable c with h | ⟨p, hp, he⟩
  · unfold asciiUpperChar
    rw [h, h]
  · show charTableLookup upperTable (charTableLookup upperTable c) = charTableLookup upperTable c
    rw [he]
    exact asciiUpperChar_fixed_on_image p hp

lemma stripLeftChars_map_upper (l : List Char) :
    stripLeftChars (l.map asciiUpperChar) = (stripLeftChars l).map asciiUpperChar := by
  induction l with
  | nil => rfl
  | cons c cs ih =>
    by_cases h : c.isWhitespace
    · simp [stripLeftChars, asciiUpperChar_isWhitespace, h, ih]
    · simp [stripLeftChars, asciiUpperChar_isWhitespace, h]

lemma stripRightChars_map_upper (l : List Char) :
    stripRightChars (l.map asciiUpperChar) = (stripRightChars l).map asciiUpperChar := by
  unfold stripRightChars
  rw [← List.map_reverse, stripLeftChars_map_upper, List.map_reverse]

lemma pyStripData_map_upper (l : List Char) :
    pyStripData (l.map asciiUpperChar) = (pyStripData l).map asciiUpperChar := by
  unfold pyStripData
  rw [stripLeftChars_map_upper, stripRightChars_map_upper]

lemma map_upper_idem (l : List Char) :
    (l.map asciiUpperChar).map asciiUpperChar = l.map asciiUpperChar := by
  rw [List.map_map]
  exact List.map_congr_left (fun c _ => asciiUpperChar_idem c)

/-- Normalizing (`strip` then `upper`) is idempotent: the core fact behind
case-insensitivity and whitespace-tolerance of the leading-keyword checks. -/
lemma pyNormalize_idem (q : String) :
    pyUpper (pyStrip (pyUpper (pyStrip q))) = pyUpper (pyStrip q) := by
  show String.mk _ = String.mk _
  simp only [pyUpper, pyStrip]
  rw [pyStripData_map_upper, map_upper_idem, pyStripData_idem]

/-! ### Shape and prefix helpers for the dispatcher -/

/-- Shape of a body outcome: either a single-text success or an exception. -/
def outShape (r : Except Exc (List TextContent)) : Bool :=
  match r with
  | .ok [_] => true
  | .ok _ => false
  | .error _ => true

lemma callBody_out_shape (env : Env) (st : McpState) (name : String)
    (args : Option (List (String × JValue))) :
    outShape (callBody env st name args).out = true := by
  unfold callBody
  dsimp only
  repeat' split
  all_goals rfl

lemma handleCallTool_resp_of_ok (env : Env) (st : McpState) (name : String)
    (args : Option (List (String × JValue))) (ts : List TextContent)
    (h : (callBody env st name args).out = .ok ts) :
    (handleCallTool env st name args).resp = ts := by
  unfold handleCallTool
  dsimp only
  rw [h]

lemma handleCallTool_resp_of_error (env : Env) (st : McpState) (name : String)
    (args : Option (List (String × JValue))) (e : Exc)
    (h : (callBody env st name args).out = .error e) :
    (handleCallTool env st name args).resp = [⟨caughtText e⟩] := by
  unfold handleCallTool
  dsimp only
  rw [h]

lemma not_startsWith_generic (m : String) :
    pyStartsWith ("Database error: " ++ m) "Error: " = false := by
  simp only [pyStartsWith, String.data_append]
  show List.isPrefixOf ('E' :: _) ('D' :: _) = false
  simp [List.isPrefixOf]

lemma not_startsWith_engine (m : String) :
    pyStartsWith ("Error: " ++ m) "Database error: " = false := by
  simp only [pyStartsWith, String.data_append]
  show List.isPrefixOf ('D' :: _) ('E' :: _) = false
  simp [List.isPrefixOf]

lemma startsWith_generic (m : String) :
    pyStartsWith ("Error: " ++ m) "Error: " = true := by
  simp only [pyStartsWith, String.data_append]
  rw [List.isPrefixOf_iff_prefix]
  exact List.prefix_append _ _

lemma startsWith_engine (m : String) :
    pyStartsWith ("Database error: " ++ m) "Database error: " = true := by
  simp only [pyStartsWith, String.data_append]
  rw [List.isPrefixOf_iff_prefix]
  exact List.prefix_append _ _

lemma pyJoin_snoc_two (sep : String) (l : List String) (a b : String) :
    ∃ pre, pyJoin sep (l ++ [a, b]) = pre ++ a ++ sep ++ b := by
  induction l with
  | nil => exact ⟨"", by simp [pyJoin]⟩
  | cons x xs ih =>
    obtain ⟨pre, hp⟩ := ih
    cases xs with
    | nil =>
      refine ⟨x ++ sep, ?_⟩
      show x ++ sep ++ pyJoin sep [a, b] = _
      simp [pyJoin, String.append_assoc]
    | cons y ys =>
      refine ⟨x ++ sep ++ pre, ?_⟩
      show x ++ sep ++ pyJoin sep ((y :: ys) ++ [a, b]) = _
      rw [hp]
      simp [String.append_assoc]

/-! ### Memo helpers -/

lemma synthesizeMemo_of_noKey (env : Env) (ins : List JValue)
    (hk : env.anthropicKey = none) :
    (synthesizeMemo env ins).1 = deterministicMemo ins := by
  unfold synthesizeMemo deterministicMemo
  by_cases h : ins.isEmpty
  · rw [if_pos h, if_pos h]
  · rw [if_neg h, if_neg h, hk]

lemma synthesizeMemo_calls_of_noKey (env : Env) (ins : List JValue)
    (hk : env.anthropicKey = none) :
    (synthesizeMemo env ins).2 = 0 := by
  unfold synthesizeMemo
  by_cases h : ins.isEmpty
  · rw [if_pos h]
  · rw [if_neg h, hk]

lemma synthesizeMemo_calls_of_key (env : Env) (ins : List JValue) (k : String)
    (hk : env.anthropicKey = some k) (hne : ins.isEmpty = false) :
    (synthesizeMemo env ins).2 = 1 := by
  unfold synthesizeMemo
  rw [if_neg (by simp [hne]), hk]
  dsimp only
  rcases hc : env.collab (bulletsOf ins) with e | t <;> rfl

/-- The state and trace an `append-insight` call leaves behind, independent of
the notification outcome. -/
lemma append_insight_effects (env : Env) (st : McpState) (v : JValue) :
    (handleCallTool env st "append-insight" (some [("insight", v)])).state
        = ⟨st.insights ++ [v]⟩ ∧
    (handleCallTool env st "append-insight" (some [("insight", v)])).trace
        = ⟨[], (synthesizeMemo env (st.insights ++ [v])).2, ["memo://insights"]⟩ := by
  unfold handleCallTool callBody
  simp only [getArg, lookupKey, List.isEmpty_cons, if_neg, reduceIte]
  cases env.notify "memo://insights" <;> simp

/-! ### Concrete environments used by witnesses and counterexamples -/

/-- Engine accepts everything and returns no rows; no Anthropic key. -/
def envOk : Env :=
  ⟨fun _ => .ok (0, []), fun _ => .ok (), none, fun _ => .ok "memo text"⟩

/-- Engine raises `sqlite3.Error` on every statement. -/
def envEngineDown : Env :=
  ⟨fun _ => .error (.sqliteError "boom"), fun _ => .ok (), none, fun _ => .ok "memo text"⟩

/-- Anthropic key configured but every collaborator exchange fails. -/
def envCollabDown : Env :=
  ⟨fun _ => .ok (0, []), fun _ => .ok (), some "k", fun _ => .error (.otherError "timeout")⟩

/-- Anthropic key configured and the collaborator answers. -/
def envCollabUp : Env :=
  ⟨fun _ => .ok (0, []), fun _ => .ok (), some "k", fun _ => .ok " M "⟩

/-- The notification transport raises on every send. -/
def envNotifyDown : Env :=
  ⟨fun _ => .ok (0, []), fun _ => .error (.otherError "connection closed"), none,
   fun _ => .ok "memo text"⟩

/-! ### Claim theorems -/

/-- C1: for every tool call — any name, any arguments, any engine, transport
and collaborator behaviour — `handle_call_tool` returns a successful response
consisting of exactly one text payload and never raises past its boundary:
any exception escaping the body (lookup, validation, policy checking, or
execution) is rendered as text, with `sqlite3.Error` under the
`Database error: ` prefix and every other exception under the distinct
`Error: ` prefix (neither prefixed text starts with the other prefix). -/
theorem dispatch_never_raises (env : Env) (st : McpState) (name : String)
    (args : Option (List (String × JValue))) :
    ∃ s : String,
      (handleCallTool env st name args).resp = [⟨s⟩] ∧
      (∀ m, (callBody env st name args).out = .error (.sqliteError m) →
        s = "Database error: " ++ m ∧ pyStartsWith s "Error: " = false ∧
        pyStartsWith s "Database error: " = true) ∧
      (∀ m, ((callBody env st name args).out = .error (.valueError m) ∨
             (callBody env st name args).out = .error (.otherError m)) →
        s = "Error: " ++ m ∧ pyStartsWith s "Database error: " = false ∧
        pyStartsWith s "Error: " = true) := by
  have hshape := callBody_out_shape env st name args
  rcases hout : (callBody env st name args).out with e | ts
  · refine ⟨caughtText e, handleCallTool_resp_of_error env st name args e hout, ?_, ?_⟩
    · intro m hm
      injection hm with hme
      subst hme
      refine ⟨rfl, not_startsWith_generic m, startsWith_engine m⟩
    · intro m hm
      rcases hm with hm | hm <;> injection hm with hme <;> subst hme
      · exact ⟨rfl, not_startsWith_engine m, startsWith_generic m⟩
      · exact ⟨rfl, not_startsWith_engine m, startsWith_generic m⟩
  · rw [hout] at hshape
    match ts, hshape with
    | [t], _ =>
      refine ⟨t.text, handleCallTool_resp_of_ok env st name args [t] hout, ?_, ?_⟩
      · intro m hm
        simp at hm
      · intro m hm
        rcases hm with hm | hm <;> simp at hm

/-- Witness for C1 at a concrete input: with an engine that raises
`sqlite3.Error("boom")`, a `list-tables` call returns the single text
`Database error: boom`. -/
theorem dispatch_never_raises_witness :
    (handleCallTool envEngineDown ⟨[]⟩ "list-tables" none).resp
      = [⟨"Database error: boom"⟩] := by
  obtain ⟨s, hresp, hdb, _⟩ :=
    dispatch_never_raises envEngineDown ⟨[]⟩ "list-tables" none
  have hs := (hdb "boom" rfl).1
  rw [hresp, hs]
  decide

/-- C2 counterexample: `call("drop-everything", {})` does not propagate as a
protocol-level fault at all — the dispatcher catches the raise inside its
`try` and returns the *successful* single-text response shape used for every
tool-call failure.  Moreover with an empty `arguments` dict the failure text
is `Error: Missing arguments` (the bare `if not arguments` guard fires before
the unknown-tool branch is reached); only a non-empty mapping yields the
`Error: Unknown tool: ...` text.  In both cases the state is untouched and no
protocol fault occurs, refuting the claimed asymmetry for unknown tools. -/
theorem unknown_tool_counterexample :
    (handleCallTool envOk ⟨[]⟩ "drop-everything" (some [])).resp
        = [⟨"Error: Missing arguments"⟩] ∧
    (handleCallTool envOk ⟨[]⟩ "drop-everything" (some [("x", JValue.num 1)])).resp
        = [⟨"Error: Unknown tool: drop-everything"⟩] ∧
    (handleCallTool envOk ⟨[]⟩ "drop-everything" (some [("x", JValue.num 1)])).state
        = ⟨[]⟩ ∧
    (handleCallTool envOk ⟨[]⟩ "drop-everything" (some [])).trace = emptyTrace := by
  refine ⟨?_, ?_, ?_, ?_⟩ <;> decide

/-- C2 amended: calling a tool whose name is not in the catalog is caught at
the dispatcher boundary and converted into a successful text response with
the generic `Error: ` prefix — never the engine prefix, and never a
protocol-level fault.  With non-empty arguments the text names the unknown
tool; with absent arguments the `Missing arguments` guard fires first. -/
theorem unknown_tool_amended (env : Env) (st : McpState) (name : String)
    (l : List (String × JValue))
    (hname : name ∉ ["list-tables", "describe-table", "append-insight",
      "read-query", "write-query", "create-table"])
    (hl : l ≠ []) :
    handleCallTool env st name (some l)
        = ⟨st, emptyTrace, [⟨"Error: Unknown tool: " ++ name⟩]⟩ ∧
    pyStartsWith ("Error: Unknown tool: " ++ name) "Database error: " = false ∧
    handleCallTool env st name none
        = ⟨st, emptyTrace, [⟨"Error: Missing arguments"⟩]⟩ := by
  simp only [List.mem_cons, List.mem_singleton, not_or] at hname
  obtain ⟨h1, h2, h3, h4, h5, h6, -⟩ := hname
  refine ⟨?_, ?_, ?_⟩
  · simp only [handleCallTool, callBody, h1, h2, h3, h4, h5, h6, argsFalsy,
      List.isEmpty_iff, hl, caughtText, if_neg, if_false, reduceIte]
    rw [← String.append_assoc]
    rfl
  · exact not_startsWith_engine _
  · simp [handleCallTool, callBody, h1, h2, h3, h4, h5, h6, argsFalsy, caughtText]

/-- Witness for C2's amended statement at the claim's concrete input. -/
theorem unknown_tool_amended_witness :
    handleCallTool envOk ⟨[]⟩ "drop-everything" (some [("x", JValue.num 1)])
        = ⟨⟨[]⟩, emptyTrace, [⟨"Error: Unknown tool: " ++ "drop-everything"⟩]⟩ ∧
    pyStartsWith ("Error: Unknown tool: " ++ "drop-everything") "Database error: " = false ∧
    handleCallTool envOk ⟨[]⟩ "drop-everything" none
        = ⟨⟨[]⟩, emptyTrace, [⟨"Error: Missing arguments"⟩]⟩ :=
  unknown_tool_amended envOk ⟨[]⟩ "drop-everything" [("x", JValue.num 1)]
    (by decide) (by decide)

/-- C3: the per-tool SQL-shape policy, with classification exactly as the
code computes it (`strip`, `upper`, leading-keyword test): `read-query`
rejects any statement not classified as a SELECT, `write-query` rejects any
statement classified as a SELECT, `create-table` rejects any statement whose
normalized text does not begin with `CREATE TABLE`; in each violating case
the result equals the policy-error response with the empty trace — in
particular no statement reaches the engine and the state is unchanged. -/
theorem policy_enforcement (env : Env) (st : McpState) (q : String) :
    (classifiesRead q = false →
      handleCallTool env st "read-query" (some [("query", JValue.str q)]) =
        ⟨st, emptyTrace, [⟨"Error: Only SELECT queries are allowed for read-query"⟩]⟩) ∧
    (classifiesRead q = true →
      handleCallTool env st "write-query" (some [("query", JValue.str q)]) =
        ⟨st, emptyTrace, [⟨"Error: SELECT queries are not allowed for write-query"⟩]⟩) ∧
    (classifiesCreateTable q = false →
      handleCallTool env st "create-table" (some [("query", JValue.str q)]) =
        ⟨st, emptyTrace, [⟨"Error: Only CREATE TABLE statements are allowed"⟩]⟩) := by
  refine ⟨fun hq => ?_, fun hq => ?_, fun hq => ?_⟩ <;>
    simp [handleCallTool, callBody, getQueryString, pyGetItem, lookupKey, asPyString,
      argsFalsy, hq, caughtText]

/-- Witness for C3 at the spec's three concrete inputs. -/
theorem policy_enforcement_witness :
    handleCallTool envOk ⟨[]⟩ "read-query" (some [("query", JValue.str "UPDATE t SET x=1")]) =
      ⟨⟨[]⟩, emptyTrace, [⟨"Error: Only SELECT queries are allowed for read-query"⟩]⟩ ∧
    handleCallTool envOk ⟨[]⟩ "write-query" (some [("query", JValue.str "SELECT * FROM t")]) =
      ⟨⟨[]⟩, emptyTrace, [⟨"Error: SELECT queries are not allowed for write-query"⟩]⟩ ∧
    handleCallTool envOk ⟨[]⟩ "create-table" (some [("query", JValue.str "CREATE INDEX idx ON t(x)")]) =
      ⟨⟨[]⟩, emptyTrace, [⟨"Error: Only CREATE TABLE statements are allowed"⟩]⟩ :=
  ⟨(policy_enforcement envOk ⟨[]⟩ "UPDATE t SET x=1").1 (by decide),
   (policy_enforcement envOk ⟨[]⟩ "SELECT * FROM t").2.1 (by decide),
   (policy_enforcement envOk ⟨[]⟩ "CREATE INDEX idx ON t(x)").2.2 (by decide)⟩

/-- C4 counterexample: with a collaborator configured whose call fails, the
renderer does not fall back to the deterministic rendering — it returns only
the bare bullet list (`return insights` in the `except` branch), without the
heading and without the summary sentence the no-collaborator rendering would
carry.  Rendering still does not fail, but its fallback output differs from
the deterministic rendering at the one-insight input `["X"]`. -/
theorem collaborator_fallback_counterexample :
    (synthesizeMemo envCollabDown [JValue.str "X"]).1 = "- X" ∧
    deterministicMemo [JValue.str "X"]
        = "📊 Business Intelligence Memo 📊\n\nKey Insights Discovered:\n\n- X" ∧
    (synthesizeMemo { envCollabDown with anthropicKey := none } [JValue.str "X"]).1
        = "📊 Business Intelligence Memo 📊\n\nKey Insights Discovered:\n\n- X" ∧
    (synthesizeMemo envCollabDown [JValue.str "X"]).1 ≠ deterministicMemo [JValue.str "X"] := by
  refine ⟨?_, ?_, ?_, ?_⟩ <;> decide

/-- C4 amended: for every non-empty insight sequence, when a collaborator is
configured and its call fails for any reason, `render()` returns the bulleted
insight list (the `- `-prefixed lines joined by newlines) rather than
propagating the error; it is the full deterministic rendering (heading and
count-based summary) only in the degenerate sense that the claim's wording
overstates — the fallback is exactly `bulletsOf`. -/
theorem collaborator_fallback_amended (env : Env) (ins : List JValue) (k : String) (e : Exc)
    (hk : env.anthropicKey = some k) (hne : ins ≠ [])
    (hc : env.collab (bulletsOf ins) = .error e) :
    (synthesizeMemo env ins).1 = bulletsOf ins := by
  unfold synthesizeMemo
  rw [if_neg (by simp [hne]), hk]
  dsimp only
  rw [hc]

/-- Witness for C4's amended statement at a concrete failing collaborator. -/
theorem collaborator_fallback_amended_witness :
    (synthesizeMemo envCollabDown [JValue.str "X", JValue.str "Y"]).1
        = bulletsOf [JValue.str "X", JValue.str "Y"] :=
  collaborator_fallback_amended envCollabDown [JValue.str "X", JValue.str "Y"]
    "k" (.otherError "timeout") rfl (by decide) rfl

/-- C5: leading-keyword classification — both the policy classifiers and the
executor's write classifier — is case-insensitive and tolerant of leading
(and trailing) whitespace: the three sample statements all classify as READ,
and in general classifying a string gives the same result as classifying its
whitespace-trimmed, case-folded form. -/
theorem classification_normalization :
    (classifiesRead "  select 1" = true ∧ classifiesRead "SELECT 1" = true ∧
      classifiesRead "Select 1" = true ∧
      classifiesWrite "  select 1" = false ∧ classifiesWrite "SELECT 1" = false ∧
      classifiesWrite "Select 1" = false) ∧
    (∀ q : String,
      classifiesRead (pyUpper (pyStrip q)) = classifiesRead q ∧
      classifiesWrite (pyUpper (pyStrip q)) = classifiesWrite q ∧
      classifiesCreateTable (pyUpper (pyStrip q)) = classifiesCreateTable q) := by
  constructor
  · refine ⟨?_, ?_, ?_, ?_, ?_, ?_⟩ <;> decide
  · intro q
    unfold classifiesRead classifiesWrite classifiesCreateTable
    rw [pyNormalize_idem]
    exact ⟨rfl, rfl, rfl⟩

/-- C6 counterexample: argument values of the wrong primitive type are not
rejected.  `describe-table` with the integer `5` as `table_name` interpolates
it into the PRAGMA and executes that statement against the engine, returning
a successful result — no `InvalidArguments` failure and a database statement
did occur; `append-insight` with an integer insight mutates the memo state
and reports success. -/
theorem argument_validation_counterexample :
    (handleCallTool envOk ⟨[]⟩ "describe-table" (some [("table_name", JValue.num 5)])).trace.execs
        = ["PRAGMA table_info(5)"] ∧
    (handleCallTool envOk ⟨[]⟩ "describe-table" (some [("table_name", JValue.num 5)])).resp
        = [⟨"[]"⟩] ∧
    (handleCallTool envOk ⟨[]⟩ "append-insight" (some [("insight", JValue.num 7)])).state
        = ⟨[JValue.num 7]⟩ ∧
    (handleCallTool envOk ⟨[]⟩ "append-insight" (some [("insight", JValue.num 7)])).resp
        = [⟨"Insight added to memo"⟩] := by
  refine ⟨?_, ?_, ?_, ?_⟩ <;> decide

/-- C6 amended: presence of required fields is enforced for every tool that
has one — `describe-table` and `append-insight` without their required field
(including absent or empty `arguments`) fail with an error-text response, and
each of the three query tools fails with `Error: Missing arguments` when the
arguments mapping is absent or empty and with the `KeyError` text when a
non-empty mapping lacks `query`; in every such case the state is unchanged
and the trace empty (no engine statement, no memo mutation) — but primitive
types are not validated (see the counterexample: a wrongly-typed value flows
straight through). -/
theorem argument_validation_amended (env : Env) (st : McpState)
    (args : Option (List (String × JValue))) :
    (getArg args "table_name" = none →
      handleCallTool env st "describe-table" args
        = ⟨st, emptyTrace, [⟨"Error: Missing table_name argument"⟩]⟩) ∧
    (getArg args "insight" = none →
      handleCallTool env st "append-insight" args
        = ⟨st, emptyTrace, [⟨"Error: Missing insight argument"⟩]⟩) ∧
    (argsFalsy args = true →
      ∀ name ∈ (["read-query", "write-query", "create-table"] : List String),
        handleCallTool env st name args
          = ⟨st, emptyTrace, [⟨"Error: Missing arguments"⟩]⟩) ∧
    (∀ l, args = some l → l ≠ [] → lookupKey l "query" = none →
      ∀ name ∈ (["read-query", "write-query", "create-table"] : List String),
        handleCallTool env st name args
          = ⟨st, emptyTrace, [⟨"Error: \x27query\x27"⟩]⟩) := by
  refine ⟨fun h => ?_, fun h => ?_, fun h name hname => ?_, fun l hl hne hq name hname => ?_⟩
  · simp [handleCallTool, callBody, h, caughtText]
  · simp [handleCallTool, callBody, h, caughtText]
  · simp only [List.mem_cons, List.mem_singleton, List.not_mem_nil, or_false] at hname
    rcases hname with rfl | rfl | rfl <;>
      simp [handleCallTool, callBody, h, caughtText]
  · subst hl
    simp only [List.mem_cons, List.mem_singleton, List.not_mem_nil, or_false] at hname
    rcases hname with rfl | rfl | rfl <;>
      simp [handleCallTool, callBody, getQueryString, pyGetItem, hq, argsFalsy,
        List.isEmpty_iff, hne, caughtText, getArg]

/-- Witness for C6's amended statement: `describe-table{}` (P8) and the
missing-field routes of the other tools at concrete inputs. -/
theorem argument_validation_amended_witness :
    handleCallTool envOk ⟨[]⟩ "describe-table" (some [])
        = ⟨⟨[]⟩, emptyTrace, [⟨"Error: Missing table_name argument"⟩]⟩ ∧
    handleCallTool envOk ⟨[]⟩ "append-insight" (some [])
        = ⟨⟨[]⟩, emptyTrace, [⟨"Error: Missing insight argument"⟩]⟩ ∧
    handleCallTool envOk ⟨[]⟩ "write-query" none
        = ⟨⟨[]⟩, emptyTrace, [⟨"Error: Missing arguments"⟩]⟩ ∧
    handleCallTool envOk ⟨[]⟩ "create-table" (some [("x", JValue.num 1)])
        = ⟨⟨[]⟩, emptyTrace, [⟨"Error: \x27query\x27"⟩]⟩ ∧
    handleCallTool envOk ⟨[]⟩ "read-query" (some [("x", JValue.num 1)])
        = ⟨⟨[]⟩, emptyTrace, [⟨"Error: \x27query\x27"⟩]⟩ :=
  ⟨(argument_validation_amended envOk ⟨[]⟩ (some [])).1 (by decide),
   (argument_validation_amended envOk ⟨[]⟩ (some [])).2.1 (by decide),
   (argument_validation_amended envOk ⟨[]⟩ none).2.2.1 (by decide)
     "write-query" (by decide),
   (argument_validation_amended envOk ⟨[]⟩ (some [("x", JValue.num 1)])).2.2.2
     [("x", JValue.num 1)] rfl (by decide) (by decide) "create-table" (by decide),
   (argument_validation_amended envOk ⟨[]⟩ (some [("x", JValue.num 1)])).2.2.2
     [("x", JValue.num 1)] rfl (by decide) (by decide) "read-query" (by decide)⟩

/-- C7 counterexample: with a collaborator configured, an `append-insight`
call does make a summarization-collaborator request — `handle_call_tool`
invokes `_synthesize_memo()` during the append (and discards its result), so
exactly one Anthropic exchange happens before the confirmation is returned. -/
theorem append_collab_counterexample :
    (handleCallTool envCollabUp ⟨[]⟩ "append-insight"
        (some [("insight", JValue.str "X")])).trace.collabCalls = 1 ∧
    (handleCallTool envCollabUp ⟨[]⟩ "append-insight"
        (some [("insight", JValue.str "X")])).resp = [⟨"Insight added to memo"⟩] := by
  refine ⟨?_, ?_⟩ <;> decide

/-- C7 amended: every `append-insight` call with a valid insight argument
appends to the memo state; with no collaborator configured it makes zero
summarization requests, but with a collaborator configured it makes exactly
one (whose result is discarded) — the collaborator is not reserved to
`render()`. -/
theorem append_collab_amended (env : Env) (st : McpState) (v : JValue) :
    (handleCallTool env st "append-insight" (some [("insight", v)])).state.insights
        = st.insights ++ [v] ∧
    (env.anthropicKey = none →
      (handleCallTool env st "append-insight" (some [("insight", v)])).trace.collabCalls = 0) ∧
    (∀ k, env.anthropicKey = some k →
      (handleCallTool env st "append-insight" (some [("insight", v)])).trace.collabCalls = 1) := by
  obtain ⟨hstate, htrace⟩ := append_insight_effects env st v
  refine ⟨by rw [hstate], fun hk => ?_, fun k hk => ?_⟩
  · rw [htrace]
    exact synthesizeMemo_calls_of_noKey env _ hk
  · rw [htrace]
    exact synthesizeMemo_calls_of_key env _ k hk (by simp)

/-- Witness for C7's amended statement with a configured collaborator. -/
theorem append_collab_amended_witness :
    (handleCallTool envCollabUp ⟨[]⟩ "append-insight"
        (some [("insight", JValue.str "X")])).state.insights = [JValue.str "X"] ∧
    (handleCallTool envCollabUp ⟨[]⟩ "append-insight"
        (some [("insight", JValue.str "X")])).trace.collabCalls = 1 := by
  obtain ⟨h1, -, h3⟩ := append_collab_amended envCollabUp ⟨[]⟩ (JValue.str "X")
  exact ⟨by simpa using h1, h3 "k" rfl⟩

/-- `x` occurs in `m` and a later (non-overlapping, in-order) occurrence of
`y` follows it. -/
def occursInOrder (x y m : String) : Prop :=
  ∃ a b c, m = a ++ x ++ b ++ y ++ c

/-- C8: append order is preserved in the rendered memo — for every starting
insight sequence, after `append-insight{"X"}` then `append-insight{"Y"}`
(through the dispatcher, under any environment), the deterministic `render()`
output contains `X` before `Y`. -/
theorem append_order_preserved (env : Env) (st : McpState) (x y : String) :
    occursInOrder x y (deterministicMemo
      (handleCallTool env
        (handleCallTool env st "append-insight" (some [("insight", JValue.str x)])).state
        "append-insight" (some [("insight", JValue.str y)])).state.insights) := by
  rw [(append_insight_effects env st (JValue.str x)).1,
    (append_insight_effects env ⟨st.insights ++ [JValue.str x]⟩ (JValue.str y)).1]
  show occursInOrder x y (deterministicMemo ((st.insights ++ [JValue.str x]) ++ [JValue.str y]))
  rw [List.append_assoc]
  show occursInOrder x y (deterministicMemo (st.insights ++ [JValue.str x, JValue.str y]))
  have hne : (st.insights ++ [JValue.str x, JValue.str y]).isEmpty = false := by
    simp
  have hlen : (st.insights ++ [JValue.str x, JValue.str y]).length > 1 := by
    simp
  obtain ⟨pre, hpre⟩ := pyJoin_snoc_two "\n"
    (st.insights.map (fun i => "- " ++ i.pyFormat)) ("- " ++ x) ("- " ++ y)
  refine ⟨"📊 Business Intelligence Memo 📊\n\n" ++ "Key Insights Discovered:\n\n"
      ++ pre ++ "- ",
    "\n" ++ "- ",
    "\nSummary:\n" ++ "Analysis has revealed "
      ++ toString (st.insights ++ [JValue.str x, JValue.str y]).length
      ++ " key business insights that suggest opportunities for strategic optimization and growth.",
    ?_⟩
  unfold deterministicMemo basicMemo bulletsOf
  rw [if_neg (by rw [hne]; exact Bool.false_ne_true), if_pos hlen, List.map_append]
  rw [show List.map (fun i => "- " ++ JValue.pyFormat i) [JValue.str x, JValue.str y]
      = ["- " ++ x, "- " ++ y] from rfl]
  rw [hpre]
  simp only [String.append_assoc]

/-- C9: `render()` is deterministic in the insight sequence — reading the
memo resource leaves the state unchanged, a second read with no intervening
append yields literally the same result, and the output is a function of the
current insight sequence alone (no caching of stale output). -/
theorem render_deterministic (env : Env) (st : McpState) (u : Uri) :
    (handleReadResource env st u).1 = st ∧
    handleReadResource env (handleReadResource env st u).1 u
        = handleReadResource env st u ∧
    (∀ st2 : McpState, st2.insights = st.insights →
      (handleReadResource env st2 u).2 = (handleReadResource env st u).2) := by
  have h1 : ∀ s : McpState, (handleReadResource env s u).1 = s := by
    intro s
    unfold handleReadResource
    dsimp only
    repeat' split
    all_goals rfl
  refine ⟨h1 st, by rw [h1 st], fun st2 h => ?_⟩
  unfold handleReadResource
  dsimp only
  rw [h]
  repeat' split
  all_goals rfl

/-- Witness for C9 at a concrete state and the memo's address. -/
theorem render_deterministic_witness :
    handleReadResource envOk
        (handleReadResource envOk ⟨[JValue.str "A"]⟩ ⟨"memo", "insights"⟩).1
        ⟨"memo", "insights"⟩
      = handleReadResource envOk ⟨[JValue.str "A"]⟩ ⟨"memo", "insights"⟩ ∧
    (handleReadResource envOk ⟨[JValue.str "B"]⟩ ⟨"memo", "insights"⟩).2
      = (handleReadResource envOk ⟨[JValue.str "B"]⟩ ⟨"memo", "insights"⟩).2 := by
  obtain ⟨-, h2, -⟩ := render_deterministic envOk ⟨[JValue.str "A"]⟩ ⟨"memo", "insights"⟩
  obtain ⟨-, -, g3⟩ := render_deterministic envOk ⟨[JValue.str "B"]⟩ ⟨"memo", "insights"⟩
  exact ⟨h2, g3 ⟨[JValue.str "B"]⟩ rfl⟩

/-- C10: `append-insight` is not atomic with respect to its notification —
the insight lands in the memo state before the notification is attempted, so
when the transport raises, the caller receives the error-text response while
the insight remains appended. -/
theorem append_notification_nonatomic (env : Env) (st : McpState) (v : JValue)
    (e : Exc) (hn : env.notify "memo://insights" = .error e) :
    (handleCallTool env st "append-insight" (some [("insight", v)])).state.insights
        = st.insights ++ [v] ∧
    (handleCallTool env st "append-insight" (some [("insight", v)])).resp
        = [⟨caughtText e⟩] ∧
    (handleCallTool env st "append-insight" (some [("insight", v)])).trace.notifies
        = ["memo://insights"] := by
  have hout : (callBody env st "append-insight" (some [("insight", v)])).out = .error e := by
    unfold callBody
    simp only [getArg, lookupKey, List.isEmpty_cons, String.reduceEq, reduceIte]
    rw [show (if false = true then (none : Option JValue) else some v) = some v from rfl]
    rw [hn]
  refine ⟨?_, handleCallTool_resp_of_error env st _ _ e hout, ?_⟩
  · rw [(append_insight_effects env st v).1]
  · rw [(append_insight_effects env st v).2]

/-- Witness for C10 with a transport whose send always raises. -/
theorem append_notification_nonatomic_witness :
    (handleCallTool envNotifyDown ⟨[]⟩ "append-insight"
        (some [("insight", JValue.str "X")])).state.insights = [JValue.str "X"] ∧
    (handleCallTool envNotifyDown ⟨[]⟩ "append-insight"
        (some [("insight", JValue.str "X")])).resp = [⟨"Error: connection closed"⟩] := by
  obtain ⟨h1, h2, -⟩ := append_notification_nonatomic envNotifyDown ⟨[]⟩
    (JValue.str "X") (.otherError "connection closed") rfl
  refine ⟨by simpa using h1, ?_⟩
  rw [h2]
  decide
